import Mathlib

/-!
Verification of the overlay mount manager (`craft_parts/overlays/overlay_manager.py`).

The Python module is embedded shallowly: each method becomes a pure Lean
function; object mutation becomes explicit state passing, where a method call
returns the Python result (or raised exception, via `Except`) together with the
object state after the call.  Mutations performed before a raise persist, as in
Python.  External collaborators that are repository code not included here
(the union-mount primitive `OverlayFS.mount`/`unmount` from `overlay_fs.py`)
or process-level effects (`os.getpid`, `sys.exit`, the body run inside
`pychroot.Chroot`) are modelled by explicit parameters and outcome values.
-/

deriving instance DecidableEq for Except

namespace CraftParts

/-- A filesystem path, modelled abstractly as a string. -/
abbrev Path := String

/-- A Python exception, as far as this module distinguishes them:
`RuntimeError` with a message, `SystemExit` (raised by `sys.exit` and by
pychroot internals), and any other exception identified by its class name. -/
inductive PyExc where
  | runtimeError (msg : String)
  | systemExit
  | other (name : String)
deriving DecidableEq, Repr

/-- The slice of `craft_parts.parts.Part` this module uses: its identity and
its `part_layer_dir`. -/
structure Part where
  name : String
  part_layer_dir : Path
deriving DecidableEq, Repr

/-- The slice of `craft_parts.infos.ProjectInfo` this module uses: the three
overlay directories. -/
structure ProjectInfo where
  overlay_mount_dir : Path
  overlay_packages_dir : Path
  overlay_work_dir : Path
deriving DecidableEq, Repr

/-- The `OverlayFS` constructor arguments (`overlay_fs.py`): the lower
directory list, the upper directory and the work directory handed to the
union-mount primitive. -/
structure OverlayFS where
  lower_dirs : List Path
  upper_dir : Path
  work_dir : Path
deriving DecidableEq, Repr

/-- Modelled from the spec: the union-mount primitive (implemented in
`overlay_fs.py`, which is not among the given sources) mounts the lower
directories read-only beneath a single read-write upper directory; the upper
directory is the sole writable surface, so every mutation made through the
merged view lands in `upper_dir`. -/
def OverlayFS.write_target (ofs : OverlayFS) : Path := ofs.upper_dir

/-- The mutable state of an `OverlayManager` instance together with the
immutable fields set by `__init__`. -/
structure OverlayManager where
  project_info : ProjectInfo
  part_list : List Part
  layer_dirs : List Path
  overlay_fs : Option OverlayFS
  base_layer_dir : Option Path
deriving DecidableEq, Repr

/-- Method `OverlayManager.__init__`: stores the project info, the part list, the
per-part layer directories, no mounted filesystem, and the optional base
layer directory. -/
def OverlayManager.init (project_info : ProjectInfo) (part_list : List Part)
    (base_layer_dir : Option Path) : OverlayManager :=
  { project_info := project_info
    part_list := part_list
    layer_dirs := part_list.map Part.part_layer_dir
    overlay_fs := none
    base_layer_dir := base_layer_dir }

/-- Python `list.index`: the index of the first occurrence of `a` in the
list, or `none` where Python raises `ValueError`. -/
def py_list_index {α : Type} [DecidableEq α] : List α → α → Option Nat
  | [], _ => none
  | x :: xs, a => if x = a then some 0 else (py_list_index xs a).map (· + 1)

/-- Method `OverlayManager.mount_layer`: mount the overlay step layer stack up to
the given part.  Builds `lowers = [base] + [package cache, if requested] +
layer_dirs[0:index]`, reverses it, and records the resulting `OverlayFS`
(whose `mount` onto the shared mount point is the union-mount primitive's
side effect, assumed here to succeed). -/
def OverlayManager.mount_layer (m : OverlayManager) (part : Part)
    (pkg_cache : Bool) : Except PyExc Unit × OverlayManager :=
  match m.base_layer_dir with
  | none =>
      (.error (.runtimeError "request to mount overlay without a base layer"), m)
  | some base =>
      match py_list_index m.part_list part with
      | none => (.error (.other "ValueError"), m)
      | some index =>
          match m.layer_dirs.get? index with
          | none => (.error (.other "IndexError"), m)
          | some upper =>
              let lowers := [base]
              let lowers :=
                if pkg_cache then lowers ++ [m.project_info.overlay_packages_dir]
                else lowers
              let lowers := lowers ++ m.layer_dirs.take index
              let lowers := lowers.reverse
              (.ok (),
                { m with
                  overlay_fs := some
                    { lower_dirs := lowers
                      upper_dir := upper
                      work_dir := m.project_info.overlay_work_dir } })

/-- Method `OverlayManager.mount_pkg_cache`: mount the two-layer package cache
stack, lower = base layer, upper = the overlay packages directory. -/
def OverlayManager.mount_pkg_cache (m : OverlayManager) :
    Except PyExc Unit × OverlayManager :=
  match m.base_layer_dir with
  | none =>
      (.error (.runtimeError
        "request to mount the overlay package cache without a base layer"), m)
  | some base =>
      (.ok (),
        { m with
          overlay_fs := some
            { lower_dirs := [base]
              upper_dir := m.project_info.overlay_packages_dir
              work_dir := m.project_info.overlay_work_dir } })

/-- Method `OverlayManager.unmount`: requires a recorded mounted filesystem, then
delegates to the union-mount primitive.  The primitive's outcome is the
parameter `fs_unmount` (`none` = success, `some e` = it raises `e`); only
after it returns successfully is `self._overlay_fs` cleared. -/
def OverlayManager.unmount (m : OverlayManager) (fs_unmount : Option PyExc) :
    Except PyExc Unit × OverlayManager :=
  match m.overlay_fs with
  | none => (.error (.runtimeError "filesystem is not mounted"), m)
  | some _ =>
      match fs_unmount with
      | some e => (.error e, m)
      | none => (.ok (), { m with overlay_fs := none })

/-- Method `OverlayManager.refresh_packages_list`: requires an active mount, then
runs the repository refresh inside `pychroot.Chroot` under
`contextlib.suppress(SystemExit)`.  The parameter `body` is the outcome of
the chroot-entered block (`none` = returns, `some e` = raises `e`). -/
def OverlayManager.refresh_packages_list (m : OverlayManager)
    (body : Option PyExc) : Except PyExc Unit × OverlayManager :=
  match m.overlay_fs with
  | none => (.error (.runtimeError "overlay filesystem not mounted"), m)
  | some _ =>
      match body with
      | some PyExc.systemExit => (.ok (), m)
      | some e => (.error e, m)
      | none => (.ok (), m)

/-- Method `OverlayManager.download_packages`: requires an active mount, then runs
the repository download inside `pychroot.Chroot` under
`contextlib.suppress(SystemExit)`. -/
def OverlayManager.download_packages (m : OverlayManager)
    (package_names : List String) (body : Option PyExc) :
    Except PyExc Unit × OverlayManager :=
  match m.overlay_fs with
  | none => (.error (.runtimeError "overlay filesystem not mounted"), m)
  | some _ =>
      match body with
      | some PyExc.systemExit => (.ok (), m)
      | some e => (.error e, m)
      | none => (.ok (), m)

/-- Method `OverlayManager.install_packages`: requires an active mount, then runs
the repository install (followed by a best-effort `shutil.rmtree` of
`/var/cache`, whose failures are ignored and which changes no modelled
state) inside `pychroot.Chroot` under `contextlib.suppress(SystemExit)`. -/
def OverlayManager.install_packages (m : OverlayManager)
    (package_names : List String) (body : Option PyExc) :
    Except PyExc Unit × OverlayManager :=
  match m.overlay_fs with
  | none => (.error (.runtimeError "overlay filesystem not mounted"), m)
  | some _ =>
      match body with
      | some PyExc.systemExit => (.ok (), m)
      | some e => (.error e, m)
      | none => (.ok (), m)

/-- What a path names on disk: nothing, a regular file with some content, or
a symbolic link to a target. -/
inductive FileKind where
  | absent
  | regular (content : String)
  | symlink (target : Path)
deriving DecidableEq, Repr

/-- The filesystem as seen through the merged view, as a map from paths to
what they name. -/
abbrev FileSystem := Path → FileKind

/-- The path `self._project_info.overlay_mount_dir / "etc" / "resolv.conf"`. -/
def resolv_conf_path (m : OverlayManager) : Path :=
  m.project_info.overlay_mount_dir ++ "/etc/resolv.conf"

/-- Method `OverlayManager.fix_resolv_conf`: if `resolv.conf` under the mount point
is a symlink, unlink it and `touch` it (an empty regular file); otherwise do
nothing. -/
def OverlayManager.fix_resolv_conf (m : OverlayManager) (fs : FileSystem) :
    FileSystem :=
  let resolv := resolv_conf_path m
  match fs resolv with
  | FileKind.symlink _ =>
      fun p => if p = resolv then FileKind.regular "" else fs p
  | _ => fs

/-- How a `with` statement over a mount session concludes: the leaked-child
guard terminated the process via `sys.exit`, an exception propagates out of
the statement, or it completes normally. -/
inductive WithOutcome where
  | terminated
  | raised (e : PyExc)
  | normal
deriving DecidableEq, Repr

/-- The result of running a session's `__exit__`: whether the manager's
`unmount` method was invoked, how the `with` statement concludes, and the
manager state afterwards. -/
structure ExitResult where
  unmount_invoked : Bool
  outcome : WithOutcome
  manager : OverlayManager
deriving DecidableEq, Repr

/-- Method `LayerMount.__init__` state: the manager (after `mkdirs`, which touches
no modelled state), the topmost part, the package-cache flag, and the
process id recorded by `os.getpid()` at construction. -/
structure LayerMount where
  overlay_manager : OverlayManager
  top_part : Part
  pkg_cache : Bool
  pid : Nat
deriving DecidableEq, Repr

/-- Method `LayerMount.__enter__`: mount the layer stack for the top part, then
apply the resolver fix-up.  On a mount failure the exception propagates and
the fix-up does not run. -/
def LayerMount.enter (s : LayerMount) (fs : FileSystem) :
    Except PyExc Unit × LayerMount × FileSystem :=
  match s.overlay_manager.mount_layer s.top_part s.pkg_cache with
  | (Except.error e, m) => (.error e, { s with overlay_manager := m }, fs)
  | (Except.ok _, m) =>
      (.ok (), { s with overlay_manager := m }, m.fix_resolv_conf fs)

/-- Method `LayerMount.__exit__`: first compare `os.getpid()` (the parameter
`current_pid`) with the pid recorded at construction; on a mismatch call
`sys.exit()` and never reach `unmount`.  Otherwise invoke `unmount` (whose
union-mount primitive outcome is `fs_unmount`); its failure propagates, and
since `__exit__` returns `False`, a pending exception from the scope body
(`pending`) propagates as well. -/
def LayerMount.exit (s : LayerMount) (current_pid : Nat)
    (pending : Option PyExc) (fs_unmount : Option PyExc) : ExitResult :=
  if current_pid = s.pid then
    match s.overlay_manager.unmount fs_unmount with
    | (Except.error e, m) =>
        { unmount_invoked := true, outcome := .raised e, manager := m }
    | (Except.ok _, m) =>
        match pending with
        | some e =>
            { unmount_invoked := true, outcome := .raised e, manager := m }
        | none =>
            { unmount_invoked := true, outcome := .normal, manager := m }
  else
    { unmount_invoked := false, outcome := .terminated,
      manager := s.overlay_manager }

/-- Method `PackageCacheMount.__init__` state: the manager (after `mkdirs`) and the
process id recorded by `os.getpid()` at construction. -/
structure PackageCacheMount where
  overlay_manager : OverlayManager
  pid : Nat
deriving DecidableEq, Repr

/-- Method `PackageCacheMount.__enter__`: mount the package cache stack, then apply
the resolver fix-up. -/
def PackageCacheMount.enter (s : PackageCacheMount) (fs : FileSystem) :
    Except PyExc Unit × PackageCacheMount × FileSystem :=
  match s.overlay_manager.mount_pkg_cache with
  | (Except.error e, m) => (.error e, { s with overlay_manager := m }, fs)
  | (Except.ok _, m) =>
      (.ok (), { s with overlay_manager := m }, m.fix_resolv_conf fs)

/-- Method `PackageCacheMount.__exit__`: identical guard-then-unmount logic to
`LayerMount.__exit__`. -/
def PackageCacheMount.exit (s : PackageCacheMount) (current_pid : Nat)
    (pending : Option PyExc) (fs_unmount : Option PyExc) : ExitResult :=
  if current_pid = s.pid then
    match s.overlay_manager.unmount fs_unmount with
    | (Except.error e, m) =>
        { unmount_invoked := true, outcome := .raised e, manager := m }
    | (Except.ok _, m) =>
        match pending with
        | some e =>
            { unmount_invoked := true, outcome := .raised e, manager := m }
        | none =>
            { unmount_invoked := true, outcome := .normal, manager := m }
  else
    { unmount_invoked := false, outcome := .terminated,
      manager := s.overlay_manager }

/-! Concrete fixtures used by witnesses: parts A, B, C with layer
directories LA, LB, LC, base layer BASE, package cache directory CACHE. -/

/-- Project info fixture: mount point MNT, package cache CACHE, work WORK. -/
def exPi : ProjectInfo :=
  { overlay_mount_dir := "MNT"
    overlay_packages_dir := "CACHE"
    overlay_work_dir := "WORK" }

/-- Part A with layer directory LA. -/
def exA : Part := { name := "A", part_layer_dir := "LA" }

/-- Part B with layer directory LB. -/
def exB : Part := { name := "B", part_layer_dir := "LB" }

/-- Part C with layer directory LC. -/
def exC : Part := { name := "C", part_layer_dir := "LC" }

/-- A freshly initialised manager over parts A, B, C with base layer BASE. -/
def exManager : OverlayManager :=
  OverlayManager.init exPi [exA, exB, exC] (some "BASE")

/-- The manager after a successful mount of the stack for part A. -/
def exMounted : OverlayManager := (exManager.mount_layer exA false).2

/-- A layer mount session fixture recorded under process id 7. -/
def exLM : LayerMount :=
  { overlay_manager := exMounted, top_part := exA, pkg_cache := true, pid := 7 }

/-- A package cache mount session fixture recorded under process id 7. -/
def exPCM : PackageCacheMount := { overlay_manager := exMounted, pid := 7 }

/-- A merged-view filesystem fixture whose resolv.conf is a symlink. -/
def exFs : FileSystem := fun p =>
  if p = "MNT/etc/resolv.conf" then
    FileKind.symlink "/run/systemd/resolve/stub-resolv.conf"
  else FileKind.absent

/-- If Python list.index finds `a` at index `i`, the list holds `a` at `i`. -/
theorem py_list_index_get? {α : Type} [DecidableEq α] {l : List α} {a : α} :
    ∀ {i : Nat}, py_list_index l a = some i → l.get? i = some a := by
  induction l with
  | nil => intro i h; simp [py_list_index] at h
  | cons x xs ih =>
      intro i h
      by_cases hx : x = a
      · simp only [py_list_index, if_pos hx] at h
        cases h
        simpa using hx
      · simp only [py_list_index, if_neg hx] at h
        rcases Option.map_eq_some'.mp h with ⟨j, hj, hji⟩
        subst hji
        simpa using ih hj

/-- C1: for every part list, configured base layer, package-cache flag and
target part at position i, mount_layer records an OverlayFS whose lower
directory list is reverse([base] ++ [cache, if requested] ++
layer_dirs[0..i)) and whose upper directory is the target part's layer
directory (layer_dirs[i]), with the shared work directory. -/
theorem C1_mount_layer_stack (pi : ProjectInfo) (parts : List Part)
    (base : Path) (pkg_cache : Bool) (part : Part) (i : Nat)
    (h : py_list_index parts part = some i) :
    (OverlayManager.init pi parts (some base)).mount_layer part pkg_cache =
      (.ok (),
        { OverlayManager.init pi parts (some base) with
          overlay_fs := some
            { lower_dirs :=
                ([base] ++ (if pkg_cache then [pi.overlay_packages_dir] else [])
                  ++ (parts.map Part.part_layer_dir).take i).reverse
              upper_dir := part.part_layer_dir
              work_dir := pi.overlay_work_dir } }) := by
  have hg : parts.get? i = some part := py_list_index_get? h
  have hl : (parts.map Part.part_layer_dir).get? i
      = some part.part_layer_dir := by
    rw [List.get?_map, hg, Option.map_some']
  show (OverlayManager.init pi parts (some base)).mount_layer part pkg_cache = _
  unfold OverlayManager.mount_layer OverlayManager.init
  simp only [h, hl]
  cases pkg_cache <;> simp

/-- C1 witness: the scenario of the claim.  Part C is at index 2 (no cache):
lowers = [LB, LA, BASE], upper = LC.  Part B with cache enabled:
lowers = [LA, CACHE, BASE], upper = LB. -/
theorem C1_mount_layer_stack_witness :
    py_list_index [exA, exB, exC] exC = some 2 ∧
    (exManager.mount_layer exC false).2.overlay_fs =
      some { lower_dirs := ["LB", "LA", "BASE"], upper_dir := "LC",
             work_dir := "WORK" } ∧
    (exManager.mount_layer exB true).2.overlay_fs =
      some { lower_dirs := ["LA", "CACHE", "BASE"], upper_dir := "LB",
             work_dir := "WORK" } := by
  refine ⟨by decide, ?_, ?_⟩
  · have h := C1_mount_layer_stack exPi [exA, exB, exC] "BASE" false exC 2
      (by decide)
    have h2 := congrArg (fun r => r.2.overlay_fs) h
    exact h2.trans (by decide)
  · have h := C1_mount_layer_stack exPi [exA, exB, exC] "BASE" true exB 1
      (by decide)
    have h2 := congrArg (fun r => r.2.overlay_fs) h
    exact h2.trans (by decide)

/-- C2 counterexample: the claim that a second mount attempt while mounted
is rejected as an error is false.  After a successful mount (the manager is
in the mounted state), a second mount_layer call and a mount_pkg_cache call
both return successfully instead of raising. -/
theorem C2_counterexample :
    (exManager.mount_layer exA false).2.overlay_fs.isSome = true ∧
    ((exManager.mount_layer exA false).2.mount_layer exB false).1 =
      Except.ok () ∧
    ((exManager.mount_layer exA false).2.mount_pkg_cache).1 =
      Except.ok () := by decide

/-- C2 amended: neither mount method checks the mounted state.  Whenever the
base layer is configured and the target is found, mount_layer succeeds and
silently overwrites the active-stack record with the new stack, regardless
of whether a stack is already mounted, and mount_pkg_cache likewise. -/
theorem C2_mount_ignores_mounted_state (m : OverlayManager) (base : Path)
    (part : Part) (i : Nat) (upper : Path) (pkg_cache : Bool)
    (hbase : m.base_layer_dir = some base)
    (hidx : py_list_index m.part_list part = some i)
    (hupper : m.layer_dirs.get? i = some upper) :
    m.mount_layer part pkg_cache =
      (.ok (),
        { m with
          overlay_fs := some
            { lower_dirs :=
                ([base] ++ (if pkg_cache then [m.project_info.overlay_packages_dir] else [])
                  ++ m.layer_dirs.take i).reverse
              upper_dir := upper
              work_dir := m.project_info.overlay_work_dir } }) ∧
    m.mount_pkg_cache =
      (.ok (),
        { m with
          overlay_fs := some
            { lower_dirs := [base]
              upper_dir := m.project_info.overlay_packages_dir
              work_dir := m.project_info.overlay_work_dir } }) := by
  constructor
  · unfold OverlayManager.mount_layer
    simp only [hbase, hidx, hupper]
    cases pkg_cache <;> simp
  · unfold OverlayManager.mount_pkg_cache
    simp [hbase]

/-- C2 amended witness: starting from the already-mounted fixture, a second
mount for part B succeeds and replaces the recorded stack. -/
theorem C2_mount_ignores_mounted_state_witness :
    exMounted.overlay_fs.isSome = true ∧
    (exMounted.mount_layer exB false).1 = Except.ok () ∧
    (exMounted.mount_layer exB false).2.overlay_fs =
      some { lower_dirs := ["LA", "BASE"], upper_dir := "LB",
             work_dir := "WORK" } := by
  refine ⟨by decide, ?_, ?_⟩
  · have h := (C2_mount_ignores_mounted_state exMounted "BASE" exB 1 "LB"
      false (by decide) (by decide) (by decide)).1
    have h2 := congrArg (fun r => r.1) h
    exact h2.trans (by decide)
  · have h := (C2_mount_ignores_mounted_state exMounted "BASE" exB 1 "LB"
      false (by decide) (by decide) (by decide)).1
    have h2 := congrArg (fun r => r.2.overlay_fs) h
    exact h2.trans (by decide)

/-- C3: on scope exit both session types compare the current process id with
the one recorded at creation before any unmount call: on a mismatch the
process terminates immediately and the manager's unmount is never invoked;
only on a match does the exit logic (the unmount call) run. -/
theorem C3_pid_guard (s : LayerMount) (t : PackageCacheMount)
    (current_pid : Nat) (pending fs_unmount : Option PyExc) :
    (current_pid ≠ s.pid →
      s.exit current_pid pending fs_unmount =
        { unmount_invoked := false, outcome := .terminated,
          manager := s.overlay_manager }) ∧
    (current_pid = s.pid →
      (s.exit current_pid pending fs_unmount).unmount_invoked = true) ∧
    (current_pid ≠ t.pid →
      t.exit current_pid pending fs_unmount =
        { unmount_invoked := false, outcome := .terminated,
          manager := t.overlay_manager }) ∧
    (current_pid = t.pid →
      (t.exit current_pid pending fs_unmount).unmount_invoked = true) := by
  refine ⟨?_, ?_, ?_, ?_⟩
  · intro h
    simp [LayerMount.exit, h]
  · intro h
    simp only [LayerMount.exit, if_pos h]
    rcases hu : s.overlay_manager.unmount fs_unmount with ⟨r, m⟩
    cases r <;> cases pending <;> simp
  · intro h
    simp [PackageCacheMount.exit, h]
  · intro h
    simp only [PackageCacheMount.exit, if_pos h]
    rcases hu : t.overlay_manager.unmount fs_unmount with ⟨r, m⟩
    cases r <;> cases pending <;> simp

/-- C3 witness: a leaked child (pid 8 ≠ 7) terminates without invoking
unmount; the owner (pid 7) does invoke unmount. -/
theorem C3_pid_guard_witness :
    exLM.exit 8 none none =
      { unmount_invoked := false, outcome := .terminated,
        manager := exLM.overlay_manager } ∧
    (exPCM.exit 7 none none).unmount_invoked = true := by
  exact ⟨(C3_pid_guard exLM exPCM 8 none none).1 (by decide),
    (C3_pid_guard exLM exPCM 7 none none).2.2.2 (by decide)⟩

/-- C4: with the owning process identity and a successfully entered session
(the manager is mounted), unmount is invoked on every exit path; a pending
exception from the scope body still propagates after a successful unmount,
and a failure of the unmount itself propagates unmasked. -/
theorem C4_exit_invokes_unmount (s : LayerMount) (t : PackageCacheMount)
    (pending fs_unmount : Option PyExc) (ofs1 ofs2 : OverlayFS)
    (hs : s.overlay_manager.overlay_fs = some ofs1)
    (ht : t.overlay_manager.overlay_fs = some ofs2) :
    ((s.exit s.pid pending fs_unmount).unmount_invoked = true ∧
     (∀ e, pending = some e → fs_unmount = none →
        (s.exit s.pid pending fs_unmount).outcome = .raised e) ∧
     (∀ e2, fs_unmount = some e2 →
        (s.exit s.pid pending fs_unmount).outcome = .raised e2)) ∧
    ((t.exit t.pid pending fs_unmount).unmount_invoked = true ∧
     (∀ e, pending = some e → fs_unmount = none →
        (t.exit t.pid pending fs_unmount).outcome = .raised e) ∧
     (∀ e2, fs_unmount = some e2 →
        (t.exit t.pid pending fs_unmount).outcome = .raised e2)) := by
  constructor
  · refine ⟨?_, ?_, ?_⟩
    · simp only [LayerMount.exit, if_pos rfl, OverlayManager.unmount, hs]
      cases fs_unmount <;> cases pending <;> rfl
    · intro e hp hf
      subst hp; subst hf
      simp [LayerMount.exit, OverlayManager.unmount, hs]
    · intro e2 hf
      subst hf
      simp [LayerMount.exit, OverlayManager.unmount, hs]
  · refine ⟨?_, ?_, ?_⟩
    · simp only [PackageCacheMount.exit, if_pos rfl, OverlayManager.unmount,
        ht]
      cases fs_unmount <;> cases pending <;> rfl
    · intro e hp hf
      subst hp; subst hf
      simp [PackageCacheMount.exit, OverlayManager.unmount, ht]
    · intro e2 hf
      subst hf
      simp [PackageCacheMount.exit, OverlayManager.unmount, ht]

/-- C4 witness: at the owner pid, a body exception propagates after the
unmount is invoked, and a failing unmount propagates its own error. -/
theorem C4_exit_invokes_unmount_witness :
    (exLM.exit exLM.pid (some (PyExc.other "Boom")) none).unmount_invoked =
      true ∧
    (exLM.exit exLM.pid (some (PyExc.other "Boom")) none).outcome =
      WithOutcome.raised (PyExc.other "Boom") ∧
    (exPCM.exit exPCM.pid none
        (some (PyExc.other "UnmountFail"))).outcome =
      WithOutcome.raised (PyExc.other "UnmountFail") := by
  refine ⟨?_, ?_, ?_⟩
  · exact (C4_exit_invokes_unmount exLM exPCM (some (PyExc.other "Boom"))
      none ⟨["BASE"], "LA", "WORK"⟩ ⟨["BASE"], "LA", "WORK"⟩ (by decide)
      (by decide)).1.1
  · exact (C4_exit_invokes_unmount exLM exPCM (some (PyExc.other "Boom"))
      none ⟨["BASE"], "LA", "WORK"⟩ ⟨["BASE"], "LA", "WORK"⟩ (by decide)
      (by decide)).1.2.1 (PyExc.other "Boom") rfl rfl
  · exact (C4_exit_invokes_unmount exLM exPCM none
      (some (PyExc.other "UnmountFail")) ⟨["BASE"], "LA", "WORK"⟩
      ⟨["BASE"], "LA", "WORK"⟩ (by decide)
      (by decide)).2.2.2 (PyExc.other "UnmountFail") rfl

/-- If mount_layer returns successfully, it recorded some mounted stack and
changed nothing else in the manager. -/
theorem mount_layer_ok_mounted (m : OverlayManager) (part : Part)
    (pkg_cache : Bool) (h : (m.mount_layer part pkg_cache).1 = .ok ()) :
    ∃ ofs, (m.mount_layer part pkg_cache).2 =
      { m with overlay_fs := some ofs } := by
  rcases hb : m.base_layer_dir with _ | base
  · simp only [OverlayManager.mount_layer, hb] at h
    cases h
  · rcases hi : py_list_index m.part_list part with _ | i
    · simp only [OverlayManager.mount_layer, hb, hi] at h
      cases h
    · rcases hg : m.layer_dirs.get? i with _ | u
      · simp only [OverlayManager.mount_layer, hb, hi, hg] at h
        cases h
      · simp only [OverlayManager.mount_layer, hb, hi, hg]
        exact ⟨_, rfl⟩

/-- If mount_pkg_cache returns successfully, it recorded some mounted stack
and changed nothing else in the manager. -/
theorem mount_pkg_cache_ok_mounted (m : OverlayManager)
    (h : m.mount_pkg_cache.1 = .ok ()) :
    ∃ ofs, m.mount_pkg_cache.2 = { m with overlay_fs := some ofs } := by
  rcases hb : m.base_layer_dir with _ | base
  · simp only [OverlayManager.mount_pkg_cache, hb] at h
    cases h
  · simp only [OverlayManager.mount_pkg_cache, hb]
    exact ⟨_, rfl⟩

/-- C5: unmount with no active mount fails with the IllegalState
RuntimeError and changes nothing; after a successful mount (by either
method), one unmount succeeds and clears the active-stack record, and a
second unmount in a row fails with the IllegalState RuntimeError. -/
theorem C5_unmount_lifecycle (m : OverlayManager) (part : Part)
    (pkg_cache : Bool) :
    (m.overlay_fs = none →
      m.unmount none =
        (.error (.runtimeError "filesystem is not mounted"), m)) ∧
    ((m.mount_layer part pkg_cache).1 = .ok () →
      ((m.mount_layer part pkg_cache).2.unmount none).1 = .ok () ∧
      ((m.mount_layer part pkg_cache).2.unmount none).2.overlay_fs = none ∧
      (((m.mount_layer part pkg_cache).2.unmount none).2.unmount none).1 =
        .error (.runtimeError "filesystem is not mounted")) ∧
    (m.mount_pkg_cache.1 = .ok () →
      (m.mount_pkg_cache.2.unmount none).1 = .ok () ∧
      (m.mount_pkg_cache.2.unmount none).2.overlay_fs = none ∧
      ((m.mount_pkg_cache.2.unmount none).2.unmount none).1 =
        .error (.runtimeError "filesystem is not mounted")) := by
  refine ⟨?_, ?_, ?_⟩
  · intro h
    simp [OverlayManager.unmount, h]
  · intro h
    obtain ⟨ofs, h2⟩ := mount_layer_ok_mounted m part pkg_cache h
    rw [h2]
    simp [OverlayManager.unmount]
  · intro h
    obtain ⟨ofs, h2⟩ := mount_pkg_cache_ok_mounted m h
    rw [h2]
    simp [OverlayManager.unmount]

/-- C5 witness: on the fresh fixture, unmount fails; after mounting part A,
one unmount succeeds and clears the record, and a second fails. -/
theorem C5_unmount_lifecycle_witness :
    exManager.unmount none =
      (.error (.runtimeError "filesystem is not mounted"), exManager) ∧
    ((exMounted.unmount none).1 = .ok () ∧
     (exMounted.unmount none).2.overlay_fs = none ∧
     ((exMounted.unmount none).2.unmount none).1 =
       .error (.runtimeError "filesystem is not mounted")) := by
  exact ⟨(C5_unmount_lifecycle exManager exA false).1 (by decide),
    (C5_unmount_lifecycle exManager exA false).2.1 (by decide)⟩

/-- C6: evaluation at the failing input.  A LayerMount session for part A
(cache enabled) entered while the merged view's resolv.conf is a symlink
does perform the fix-up, yet the active stack's writable surface — where
the union-mount primitive materialises mutations made through the merged
view — is LA, part A's layer directory (content later promoted out of the
stack), not the package-cache layer CACHE. -/
theorem C6_fixup_lands_on_part_layer :
    (exLM.enter exFs).1 = Except.ok () ∧
    (exLM.enter exFs).2.2 "MNT/etc/resolv.conf" = FileKind.regular "" ∧
    (exLM.enter exFs).2.1.overlay_manager.overlay_fs.map
      OverlayFS.write_target = some "LA" ∧
    "LA" ∈ exManager.layer_dirs ∧
    "LA" ≠ exPi.overlay_packages_dir := by decide

/-- C7: every mount-state precondition violation raises the IllegalState
RuntimeError: both mount methods fail without a configured base layer, and
the three package operations fail without an active mount. -/
theorem C7_precondition_errors (m : OverlayManager) (part : Part)
    (pkg_cache : Bool) (names : List String) (body : Option PyExc) :
    (m.base_layer_dir = none →
      (m.mount_layer part pkg_cache).1 =
        .error (.runtimeError
          "request to mount overlay without a base layer") ∧
      m.mount_pkg_cache.1 =
        .error (.runtimeError
          "request to mount the overlay package cache without a base layer")) ∧
    (m.overlay_fs = none →
      (m.refresh_packages_list body).1 =
        .error (.runtimeError "overlay filesystem not mounted") ∧
      (m.download_packages names body).1 =
        .error (.runtimeError "overlay filesystem not mounted") ∧
      (m.install_packages names body).1 =
        .error (.runtimeError "overlay filesystem not mounted")) := by
  constructor
  · intro h
    constructor
    · simp [OverlayManager.mount_layer, h]
    · simp [OverlayManager.mount_pkg_cache, h]
  · intro h
    refine ⟨?_, ?_, ?_⟩
    · simp [OverlayManager.refresh_packages_list, h]
    · simp [OverlayManager.download_packages, h]
    · simp [OverlayManager.install_packages, h]

/-- C7 witness: a manager with no base layer rejects both mounts; a fresh
manager with no active mount rejects the three package operations. -/
theorem C7_precondition_errors_witness :
    (OverlayManager.init exPi [exA] none).mount_layer exA true =
      ((Except.error (.runtimeError
          "request to mount overlay without a base layer") :
         Except PyExc Unit), OverlayManager.init exPi [exA] none) ∧
    (exManager.refresh_packages_list none).1 =
      .error (.runtimeError "overlay filesystem not mounted") ∧
    (exManager.install_packages ["pkg"] none).1 =
      .error (.runtimeError "overlay filesystem not mounted") := by
  refine ⟨?_, ?_, ?_⟩
  · have h := ((C7_precondition_errors (OverlayManager.init exPi [exA] none)
      exA true ["pkg"] none).1 (by decide)).1
    refine Prod.ext ?_ rfl
    exact h
  · exact ((C7_precondition_errors exManager exA true ["pkg"] none).2
      (by decide)).1
  · exact ((C7_precondition_errors exManager exA true ["pkg"] none).2
      (by decide)).2.2

/-- C8: with an active mount, a SystemExit raised from the chroot-entered
block of each package operation is suppressed (the call returns normally),
while any other exception from the same block propagates — the suppression
is scoped to SystemExit alone. -/
theorem C8_systemexit_suppressed (m : OverlayManager) (ofs : OverlayFS)
    (names : List String) (e : PyExc) (hm : m.overlay_fs = some ofs) :
    ((m.refresh_packages_list (some PyExc.systemExit)).1 = .ok () ∧
     (m.download_packages names (some PyExc.systemExit)).1 = .ok () ∧
     (m.install_packages names (some PyExc.systemExit)).1 = .ok ()) ∧
    (e ≠ PyExc.systemExit →
      (m.refresh_packages_list (some e)).1 = .error e ∧
      (m.download_packages names (some e)).1 = .error e ∧
      (m.install_packages names (some e)).1 = .error e) := by
  constructor
  · refine ⟨?_, ?_, ?_⟩
    · simp [OverlayManager.refresh_packages_list, hm]
    · simp [OverlayManager.download_packages, hm]
    · simp [OverlayManager.install_packages, hm]
  · intro he
    refine ⟨?_, ?_, ?_⟩
    · cases e <;> simp [OverlayManager.refresh_packages_list, hm] <;>
        exact absurd rfl he
    · cases e <;> simp [OverlayManager.download_packages, hm] <;>
        exact absurd rfl he
    · cases e <;> simp [OverlayManager.install_packages, hm] <;>
        exact absurd rfl he

/-- C8 witness: on the mounted fixture, SystemExit from the chroot block is
discarded while a RuntimeError from the same block propagates. -/
theorem C8_systemexit_suppressed_witness :
    (exMounted.refresh_packages_list (some PyExc.systemExit)).1 = .ok () ∧
    (exMounted.download_packages ["pkg"] (some PyExc.systemExit)).1 =
      .ok () ∧
    (exMounted.install_packages ["pkg"]
        (some (PyExc.runtimeError "apt failure"))).1 =
      .error (.runtimeError "apt failure") := by
  refine ⟨?_, ?_, ?_⟩
  · exact (C8_systemexit_suppressed exMounted ⟨["BASE"], "LA", "WORK"⟩
      ["pkg"] (PyExc.runtimeError "apt failure") (by decide)).1.1
  · exact (C8_systemexit_suppressed exMounted ⟨["BASE"], "LA", "WORK"⟩
      ["pkg"] (PyExc.runtimeError "apt failure") (by decide)).1.2.1
  · exact ((C8_systemexit_suppressed exMounted ⟨["BASE"], "LA", "WORK"⟩
      ["pkg"] (PyExc.runtimeError "apt failure") (by decide)).2
      (by decide)).2.2

/-- C9: if the resolver file under the mount point is a symlink, the fix-up
replaces it by an empty regular file and touches no other path; if it is a
regular file or absent, the filesystem is left untouched. -/
theorem C9_fix_resolv_conf_cases (m : OverlayManager) (fs : FileSystem) :
    (∀ target, fs (resolv_conf_path m) = FileKind.symlink target →
      m.fix_resolv_conf fs (resolv_conf_path m) = FileKind.regular "" ∧
      ∀ p, p ≠ resolv_conf_path m → m.fix_resolv_conf fs p = fs p) ∧
    (∀ content, fs (resolv_conf_path m) = FileKind.regular content →
      m.fix_resolv_conf fs = fs) ∧
    (fs (resolv_conf_path m) = FileKind.absent →
      m.fix_resolv_conf fs = fs) := by
  refine ⟨?_, ?_, ?_⟩
  · intro target h
    constructor
    · simp [OverlayManager.fix_resolv_conf, h]
    · intro p hp
      simp [OverlayManager.fix_resolv_conf, h, hp]
  · intro content h
    simp [OverlayManager.fix_resolv_conf, h]
  · intro h
    simp [OverlayManager.fix_resolv_conf, h]

/-- C9 witness: on the symlinked fixture filesystem, the fix-up yields an
empty regular resolv.conf and leaves another path untouched. -/
theorem C9_fix_resolv_conf_cases_witness :
    exFs (resolv_conf_path exManager) =
      FileKind.symlink "/run/systemd/resolve/stub-resolv.conf" ∧
    exManager.fix_resolv_conf exFs (resolv_conf_path exManager) =
      FileKind.regular "" ∧
    exManager.fix_resolv_conf exFs "MNT/etc/hosts" =
      exFs "MNT/etc/hosts" := by
  refine ⟨by decide, ?_, ?_⟩
  · exact ((C9_fix_resolv_conf_cases exManager exFs).1
      "/run/systemd/resolve/stub-resolv.conf" (by decide)).1
  · exact ((C9_fix_resolv_conf_cases exManager exFs).1
      "/run/systemd/resolve/stub-resolv.conf" (by decide)).2
      "MNT/etc/hosts" (by decide)

/-- C10: if the union-mount primitive's unmount raises during unmount(), the
error propagates with the active-stack record left in place (the manager
stays mounted), so a subsequent unmount passes the precondition check. -/
theorem C10_failed_unmount_keeps_state (m : OverlayManager)
    (ofs : OverlayFS) (e : PyExc) (hm : m.overlay_fs = some ofs) :
    m.unmount (some e) = (.error e, m) ∧
    ((m.unmount (some e)).2.unmount none).1 = .ok () := by
  constructor
  · simp [OverlayManager.unmount, hm]
  · simp [OverlayManager.unmount, hm]

/-- C10 witness: on the mounted fixture a failing unmount leaves the state
unchanged and a retry with a succeeding primitive completes. -/
theorem C10_failed_unmount_keeps_state_witness :
    exMounted.unmount (some (PyExc.other "Busy")) =
      (.error (PyExc.other "Busy"), exMounted) ∧
    ((exMounted.unmount (some (PyExc.other "Busy"))).2.unmount none).1 =
      .ok () := by
  exact C10_failed_unmount_keeps_state exMounted ⟨["BASE"], "LA", "WORK"⟩
    (PyExc.other "Busy") (by decide)

end CraftParts
